import Mathlib

/-!
Shallow embedding of the jobs-search-system candidate pipeline
(src/core/schemas.py, src/core/config.py, src/core/db.py,
src/pipeline/matcher.py, src/pipeline/scorer.py, src/pipeline/llm_scorer.py,
src/pipeline/quota_manager.py, src/pipeline/orchestrator.py).

Modelling conventions: Python floats are modelled as exact rationals (ℚ);
Python strings as Lean `String` with ASCII case folding; SQLite tables as
lists of row structures with explicit state passing; `datetime.now()` /
`date.today()` as explicit `now : Int` (days) and `today : String`
parameters; exceptions as `Except`/`Option`.
-/

namespace JobsSearch

/-! ## String helpers (models of Python str operations) -/

/-- Model of Python `str.lower()` (ASCII case folding via `Char.toLower`). -/
def lowerStr (s : String) : String := String.mk (s.data.map Char.toLower)

/-- Model of Python `str.strip()`: drop leading and trailing whitespace. -/
def pyStrip (s : String) : String :=
  String.mk (((s.data.dropWhile Char.isWhitespace).reverse.dropWhile
      Char.isWhitespace).reverse)

/-- Does `hay` start with `needle` (character lists)? -/
def startsWithList : List Char → List Char → Bool
  | [], _ => true
  | _ :: _, [] => false
  | a :: as, b :: bs => a == b && startsWithList as bs

/-- Is `needle` an infix of `hay` (character lists)?  Empty needle matches. -/
def listInfix (needle : List Char) : List Char → Bool
  | [] => startsWithList needle []
  | c :: rest => startsWithList needle (c :: rest) || listInfix needle rest

/-- Model of Python `sub in hay` substring membership. -/
def containsSub (hay sub : String) : Bool := listInfix sub.data hay.data

/-- Model of Python min(a, b) on numbers (kernel-computable via Rat.blt). -/
def pyMin (a b : ℚ) : ℚ := if Rat.blt b a then b else a

/-- Model of Python max(a, b) on numbers (kernel-computable via Rat.blt). -/
def pyMax (a b : ℚ) : ℚ := if Rat.blt a b then b else a

/-! ## Data model (src/core/schemas.py) -/

/-- JobCandidate from src/core/schemas.py: a frozen job listing value object.
`found_at` (a Python datetime) is modelled as an integer timestamp in days. -/
structure JobCandidate where
  external_id : String
  platform : String
  title : String
  company : String
  location : String
  url : String
  is_easy_apply : Bool
  workplace_type : String
  posted_time : String
  description_snippet : String
  found_at : Int
deriving DecidableEq, Repr

/-- ScoredCandidate pairing a candidate with a relevance score.
The `candidate` and `score` fields follow src/core/schemas.py.
Modelled from the spec: the optional `llm_score` (0-100 or absent) and
`llm_reasoning` (empty when absent) fields are referenced by
src/pipeline/llm_scorer.py and the test suite, but their declarations are
absent from the ScoredCandidate class in src/core/schemas.py. -/
structure ScoredCandidate where
  candidate : JobCandidate
  score : ℚ
  llm_score : Option ℚ
  llm_reasoning : String
deriving DecidableEq, Repr

/-- Model of the pydantic constructor validation of ScoredCandidate:
`score` is declared `Field(ge=0.0, le=100.0)`, so construction with an
out-of-range score raises ValidationError (here: returns `none`) instead of
clamping.  The llm fields default to absent/empty. -/
def mkScoredCandidate (candidate : JobCandidate) (score : ℚ) :
    Option ScoredCandidate :=
  if 0 ≤ score ∧ score ≤ 100 then
    some ⟨candidate, score, none, ""⟩
  else
    none

/-! ## Configuration (src/core/config.py) -/

/-- SearchFilters from src/core/config.py. -/
structure SearchFilters where
  geo_id : Option Int
  workplace_type : List String
  experience_level : List String
  easy_apply_only : Bool
  max_pages : Nat
deriving DecidableEq, Repr

/-- SearchConfig from src/core/config.py.
Modelled from the spec: `scoring_keywords` (boost-only, non-filtering
keywords, spec section 3) is accessed by the orchestrator but its declaration
is absent from the SearchConfig class in src/core/config.py. -/
structure SearchConfig where
  keyword : String
  platform : String
  filters : SearchFilters
  exclude_keywords : List String
  require_keywords : List String
  scoring_keywords : List String
  fetch_description : Bool
deriving DecidableEq, Repr

/-- QuotaPlatformConfig from src/core/config.py (both maxima are declared
`ge=1` by pydantic). -/
structure QuotaPlatformConfig where
  max_searches_per_day : Nat
  max_candidates_per_day : Nat
deriving DecidableEq, Repr

/-- ScoringConfig.  The first five fields follow src/core/config.py.
Modelled from the spec: the LLM fields (`llm_enabled`, `llm_provider`,
`llm_model`, `rule_weight`, `llm_weight`, spec section 4.4) are referenced by
src/pipeline/llm_scorer.py and the test suite, but their declarations are
absent from the ScoringConfig class in src/core/config.py. -/
structure ScoringConfig where
  title_match_bonus : ℚ
  seniority_match_bonus : ℚ
  easy_apply_bonus : ℚ
  remote_bonus : ℚ
  recency_weight : ℚ
  llm_enabled : Bool
  llm_provider : String
  llm_model : Option String
  rule_weight : ℚ
  llm_weight : ℚ
deriving DecidableEq, Repr

/-- The field validation actually declared on ScoringConfig in
src/core/config.py: only `recency_weight` carries constraints
(`Field(ge=0.0, le=1.0)`).  No other field of the class is validated, and
unknown configuration keys are ignored by pydantic's default behaviour. -/
def validateScoringConfig (c : ScoringConfig) : Bool :=
  0 ≤ c.recency_weight && c.recency_weight ≤ 1

/-- Modelled from the spec: the configuration-load-time invariant of spec
sections 4.4 and 7 — when LLM scoring is enabled, `rule_weight + llm_weight`
must equal 1 exactly; violations must fail at load time.  This validator is
absent from src/core/config.py (tests/unit/test_config.py expects it). -/
def validateScoringConfigSpec (c : ScoringConfig) : Bool :=
  validateScoringConfig c &&
    (!c.llm_enabled || (c.rule_weight + c.llm_weight == 1))

/-- Settings (the fields of src/core/config.py used by the pipeline). -/
structure Settings where
  scoring : ScoringConfig
  quotas : List (String × QuotaPlatformConfig)
  searches : List SearchConfig
deriving Repr

/-! ## Filter chain (src/pipeline/matcher.py) -/

/-- Keyword normalisation shared by the keyword filters:
`[kw.lower().strip() for kw in keywords if kw.strip()]`. -/
def normKeywords (kws : List String) : List String :=
  (kws.filter (fun kw => !(pyStrip kw == ""))).map
    (fun kw => pyStrip (lowerStr kw))

/-- ExcludeKeywordsFilter: remove candidates whose title contains any
excluded keyword (case-insensitive); empty keyword list is a no-op. -/
def excludeFilter (exclude_keywords : List String)
    (candidates : List JobCandidate) : List JobCandidate :=
  let ks := normKeywords exclude_keywords
  if ks = [] then candidates
  else candidates.filter
    (fun c => !(ks.any (fun kw => containsSub (lowerStr c.title) kw)))

/-- PositiveKeywordsFilter: keep candidates for which some required keyword
occurs in `f"{title} {snippet}".lower()`; empty keyword list is a no-op. -/
def posFilter (require_keywords : List String)
    (candidates : List JobCandidate) : List JobCandidate :=
  let ks := normKeywords require_keywords
  if ks = [] then candidates
  else candidates.filter
    (fun c => ks.any (fun kw =>
      containsSub (lowerStr (c.title ++ " " ++ c.description_snippet)) kw))

/-- DeduplicationFilter: stateful in-run dedup by (platform, external_id).
The mutable `self._seen` set is threaded explicitly. -/
def dedupFilter (seen : List (String × String))
    (candidates : List JobCandidate) :
    List JobCandidate × List (String × String) :=
  candidates.foldl
    (fun acc c =>
      let key := (c.platform, c.external_id)
      if acc.2.contains key then (acc.1, acc.2)
      else (acc.1 ++ [c], key :: acc.2))
    ([], seen)

/-! ## Rule scorer (src/pipeline/scorer.py) -/

/-- SENIORITY_KEYWORDS from src/pipeline/scorer.py. -/
def SENIORITY_KEYWORDS : List String :=
  ["senior", "staff", "principal", "lead", "director", "head", "vp"]

/-- Digit run to a natural number. -/
def digitsToNat (ds : List Char) : Nat :=
  ds.foldl (fun n c => 10 * n + (c.toNat - 48)) 0

/-- One attempt of the regex `(\d+)\s*<unit>` at the current position:
a non-empty digit run, optional whitespace, then the unit literal. -/
def matchNumUnit (unit : List Char) (s : List Char) : Option Nat :=
  let ds := s.takeWhile Char.isDigit
  if ds = [] then none
  else
    let rest := (s.dropWhile Char.isDigit).dropWhile Char.isWhitespace
    if startsWithList unit rest then some (digitsToNat ds) else none

/-- Model of `re.search` for `(\d+)\s*<unit>`: leftmost match wins. -/
def findNumUnit (unit : List Char) : List Char → Option Nat
  | [] => none
  | c :: rest =>
    match matchNumUnit unit (c :: rest) with
    | some n => some n
    | none => findNumUnit unit rest

/-- _estimate_days_ago: try the _RECENCY_PATTERNS in declaration order
(hour x0, minute x0, day x1, week x7, month x30); the matched number times
the multiplier is the approximate days-ago value.  Case-insensitivity is
modelled by searching the lowercased text. -/
def estimateDaysAgo (posted_time : String) : Option ℚ :=
  let s := (lowerStr posted_time).data
  match findNumUnit "hour".data s with
  | some n => some ((n : ℚ) * 0)
  | none =>
    match findNumUnit "minute".data s with
    | some n => some ((n : ℚ) * 0)
    | none =>
      match findNumUnit "day".data s with
      | some n => some ((n : ℚ) * 1)
      | none =>
        match findNumUnit "week".data s with
        | some n => some ((n : ℚ) * 7)
        | none =>
          match findNumUnit "month".data s with
          | some n => some ((n : ℚ) * 30)
          | none => none

/-- _recency_score: decaying bonus, max 10 x weight for today's posts. -/
def recencyScore (posted_time : String) (weight : ℚ) : ℚ :=
  if posted_time = "" then 0
  else
    match estimateDaysAgo posted_time with
    | none => 0
    | some days_ago =>
      let max_bonus : ℚ := 10
      if days_ago ≤ 0 then max_bonus * weight
      else (pyMax 0 (max_bonus - days_ago / 3)) * weight

/-- The accumulated (pre-clamp) score of score_candidate: title keyword
bonuses, seniority bonus, easy-apply bonus, remote bonus, recency bonus. -/
def scoreRaw (candidate : JobCandidate) (config : ScoringConfig)
    (require_keywords scoring_keywords : List String) : ℚ :=
  let score : ℚ := 0
  let all_keywords := require_keywords ++ scoring_keywords
  let score :=
    if all_keywords = [] then score
    else all_keywords.foldl
      (fun sc kw =>
        if containsSub (lowerStr candidate.title) (pyStrip (lowerStr kw))
        then sc + config.title_match_bonus else sc) score
  let title_lower := lowerStr candidate.title
  let score :=
    if SENIORITY_KEYWORDS.any (fun kw => containsSub title_lower kw)
    then score + config.seniority_match_bonus else score
  let score :=
    if candidate.is_easy_apply then score + config.easy_apply_bonus else score
  let score :=
    if lowerStr candidate.workplace_type = "remote"
    then score + config.remote_bonus else score
  score + recencyScore candidate.posted_time config.recency_weight

/-- score_candidate from src/pipeline/scorer.py: accumulate the bonuses,
clamp to [0, 100], wrap in a ScoredCandidate. -/
def scoreCandidate (candidate : JobCandidate) (config : ScoringConfig)
    (require_keywords scoring_keywords : List String) : ScoredCandidate :=
  ⟨candidate,
   pyMax 0 (pyMin 100 (scoreRaw candidate config require_keywords scoring_keywords)),
   none, ""⟩

/-- Stable descending insertion by score (model of Python's stable
`list.sort(key=score, reverse=True)`). -/
def insertByScoreDesc (x : ScoredCandidate) :
    List ScoredCandidate → List ScoredCandidate
  | [] => [x]
  | y :: ys =>
    if y.score ≤ x.score then x :: y :: ys else y :: insertByScoreDesc x ys

/-- Stable sort by score descending. -/
def sortByScoreDesc : List ScoredCandidate → List ScoredCandidate
  | [] => []
  | x :: xs => insertByScoreDesc x (sortByScoreDesc xs)

/-- score_candidates: score a batch and sort by score descending. -/
def scoreCandidates (candidates : List JobCandidate) (config : ScoringConfig)
    (require_keywords scoring_keywords : List String) : List ScoredCandidate :=
  sortByScoreDesc
    (candidates.map (fun c =>
      scoreCandidate c config require_keywords scoring_keywords))

/-! ## Candidate profile (src/profile/schema.py) -/

/-- ProfileData from src/profile/schema.py. -/
structure ProfileData where
  name : String
  search_keywords : List String
  seniority : String
  scoring_keywords : List String
  exclude_keywords : List String
  years_of_experience : Option Int
  preferred_workplace : List String
  preferred_geo_ids : List Int
deriving DecidableEq, Repr

/-! ## JSON response model (json.loads as used by src/pipeline/llm_scorer.py)

The scorer consumes flat JSON objects of the documented response shape.  The
model parses flat objects with string/number/bool/null values; any other
top-level JSON (arrays, nesting, bare scalars) is treated as a parse
failure, which in the Python code also ends in an error raised out of
_parse_llm_score (json or type errors), i.e. the same fallback path. -/

def quoteChar : Char := Char.ofNat 34

def backslashChar : Char := Char.ofNat 92

def backtickChar : Char := Char.ofNat 96

def lbraceChar : Char := Char.ofNat 123

def rbraceChar : Char := Char.ofNat 125

/-- JSON whitespace accepted by json.loads. -/
def jsonWs (c : Char) : Bool :=
  c == ' ' || c == Char.ofNat 9 || c == Char.ofNat 10 || c == Char.ofNat 13

/-- Flat JSON value. -/
inductive JVal where
  | jnull : JVal
  | jbool : Bool → JVal
  | jnum : ℚ → JVal
  | jstr : String → JVal
deriving DecidableEq, Repr

/-- Minimal escape handling inside JSON strings. -/
def unescapeChar (c : Char) : Char :=
  if c == 'n' then Char.ofNat 10
  else if c == 't' then Char.ofNat 9
  else if c == 'r' then Char.ofNat 13
  else c

/-- Scan a JSON string body up to the closing quote. -/
def scanJStr : List Char → Option (List Char × List Char)
  | [] => none
  | c :: rest =>
    if c == quoteChar then some ([], rest)
    else if c == backslashChar then
      match rest with
      | [] => none
      | e :: rest2 =>
        match scanJStr rest2 with
        | none => none
        | some (s, r) => some (unescapeChar e :: s, r)
    else
      match scanJStr rest with
      | none => none
      | some (s, r) => some (c :: s, r)

/-- Parse a JSON number (optional minus, digits, optional fraction). -/
def parseJNum (s : List Char) : Option (ℚ × List Char) :=
  let neg := startsWithList ['-'] s
  let s1 := if neg then s.drop 1 else s
  let ds := s1.takeWhile Char.isDigit
  if ds = [] then none
  else
    let r1 := s1.dropWhile Char.isDigit
    let ip : ℚ := (digitsToNat ds : ℚ)
    match r1 with
    | c :: r2 =>
      if c == '.' then
        let fs := r2.takeWhile Char.isDigit
        if fs = [] then none
        else
          let v := ip + (digitsToNat fs : ℚ) / ((10 : ℚ) ^ fs.length)
          some ((if neg then -v else v), r2.dropWhile Char.isDigit)
      else some ((if neg then -ip else ip), r1)
    | [] => some ((if neg then -ip else ip), [])

/-- Parse one flat JSON value. -/
def parseJVal (s : List Char) : Option (JVal × List Char) :=
  let t := s.dropWhile jsonWs
  match t with
  | [] => none
  | c :: rest =>
    if c == quoteChar then
      match scanJStr rest with
      | none => none
      | some (cs, r) => some (JVal.jstr (String.mk cs), r)
    else if c == '-' || c.isDigit then
      match parseJNum t with
      | none => none
      | some (q, r) => some (JVal.jnum q, r)
    else if startsWithList "true".data t then some (JVal.jbool true, t.drop 4)
    else if startsWithList "false".data t then some (JVal.jbool false, t.drop 5)
    else if startsWithList "null".data t then some (JVal.jnull, t.drop 4)
    else none

/-- Parse the members of a JSON object after the opening brace (at least one
member), up to and including the closing brace. -/
def parseMembers (fuel : Nat) (s : List Char) :
    Option (List (String × JVal) × List Char) :=
  match fuel with
  | 0 => none
  | Nat.succ fuel =>
    let t := s.dropWhile jsonWs
    match t with
    | [] => none
    | c :: rest =>
      if c == quoteChar then
        match scanJStr rest with
        | none => none
        | some (keyCs, r1) =>
          match r1.dropWhile jsonWs with
          | [] => none
          | d :: r3 =>
            if d == ':' then
              match parseJVal r3 with
              | none => none
              | some (v, r4) =>
                match r4.dropWhile jsonWs with
                | [] => none
                | e :: r6 =>
                  if e == ',' then
                    match parseMembers fuel r6 with
                    | none => none
                    | some (ms, r7) => some ((String.mk keyCs, v) :: ms, r7)
                  else if e == rbraceChar then
                    some ([(String.mk keyCs, v)], r6)
                  else none
            else none
      else none

/-- Model of json.loads restricted to the flat-object shape the scorer
consumes; yields the key-value members in textual order. -/
def jsonLoads (s : String) : Option (List (String × JVal)) :=
  let t := s.data.dropWhile jsonWs
  match t with
  | [] => none
  | c :: rest =>
    if c == lbraceChar then
      match rest.dropWhile jsonWs with
      | [] => none
      | d :: rest2 =>
        if d == rbraceChar then
          if rest2.dropWhile jsonWs = [] then some [] else none
        else
          match parseMembers (s.data.length + 1) rest with
          | none => none
          | some (ms, r) =>
            if r.dropWhile jsonWs = [] then some ms else none
    else none

/-- Last binding of a key in a parsed object (Python dicts built by
json.loads keep the last duplicate key). -/
def lookupLast (key : String) (obj : List (String × JVal)) : Option JVal :=
  match obj.reverse.find? (fun p => p.1 == key) with
  | none => none
  | some p => some p.2

/-- Model of Python float(str) on plain decimal literals. -/
def parseFloatStr (s : String) : Option ℚ :=
  let cs := (pyStrip s).data
  let cs := if startsWithList ['+'] cs then cs.drop 1 else cs
  match parseJNum cs with
  | some (q, []) => some q
  | _ => none

/-- Model of Python float(x) on a JSON value (numbers, bools, numeric
strings succeed; anything else raises, modelled as none). -/
def pyFloat : JVal → Option ℚ
  | JVal.jnum q => some q
  | JVal.jbool b => some (if b then 1 else 0)
  | JVal.jstr s => parseFloatStr s
  | JVal.jnull => none

/-- Model of Python str(x) on a JSON value (string content passes through;
the numeric rendering is approximate and never exercised by the claims). -/
def pyStr : JVal → String
  | JVal.jstr s => s
  | JVal.jbool b => if b then "True" else "False"
  | JVal.jnull => "None"
  | JVal.jnum q =>
    toString q.num ++ (if q.den = 1 then ".0" else "/" ++ toString q.den)

/-! ## LLM scorer (src/pipeline/llm_scorer.py) -/

/-- The two re.sub calls of _parse_llm_score on the stripped response: drop
a leading markdown fence (with optional json tag and following whitespace)
and a trailing fence (with one optional preceding newline; the outer strip
already removed trailing whitespace). -/
def stripFences (raw_text : String) : String :=
  let s := (pyStrip raw_text).data
  let s :=
    if startsWithList [backtickChar, backtickChar, backtickChar] s then
      let r := s.drop 3
      let r := if startsWithList "json".data r then r.drop 4 else r
      r.dropWhile Char.isWhitespace
    else s
  let rev := s.reverse
  let rev :=
    if startsWithList [backtickChar, backtickChar, backtickChar] rev then
      let r := rev.drop 3
      if startsWithList [Char.ofNat 10] r then r.drop 1 else r
    else rev
  String.mk rev.reverse

/-- Floor of a rational (via flooring integer division). -/
def ratFloor (q : ℚ) : ℤ := Int.fdiv q.num (q.den : ℤ)

/-- Model of Python round(x, 2): round to 2 decimal places, halves to even,
on exact rationals. -/
def round2 (x : ℚ) : ℚ :=
  let y := 100 * x
  let f := ratFloor y
  let r := y - (f : ℚ)
  let n : ℤ :=
    if r < 1 / 2 then f
    else if 1 / 2 < r then f + 1
    else if f % 2 = 0 then f else f + 1
  (n : ℚ) / 100

/-- _parse_llm_score: strip fences, parse JSON, require a numeric score
field (clamped to [0, 100]), default reasoning to the empty string. -/
def parseLLMScore (raw_text : String) : Except String (ℚ × String) :=
  let cleaned := stripFences raw_text
  match jsonLoads cleaned with
  | none => Except.error "Failed to parse LLM score response as JSON"
  | some data =>
    match lookupLast "score" data with
    | none => Except.error "LLM response missing score field"
    | some v =>
      match pyFloat v with
      | none => Except.error "could not convert score to float"
      | some raw_score =>
        let score := pyMax 0 (pyMin 100 raw_score)
        let reasoning :=
          match lookupLast "reasoning" data with
          | none => ""
          | some r => pyStr r
        Except.ok (score, reasoning)

/-- LLM provider capability: complete(prompt, model, system) returning raw
text or raising (src/profile/llm/base.py). -/
structure LLMProvider where
  complete : String → Option String → String → Except String String

/-- _SCORING_SYSTEM_PROMPT from src/pipeline/llm_scorer.py. -/
def scoringSystemPrompt : String :=
  "You are a senior recruiter evaluating job-candidate fit.\n\n" ++
  "Given a candidate profile and a job listing, score how well the job matches " ++
  "the candidate on a 0-100 scale using this rubric:\n" ++
  "  90-100: Perfect fit — role, skills, seniority, and workplace all align\n" ++
  "  70-89:  Strong fit — minor gaps in 1-2 areas\n" ++
  "  50-69:  Moderate fit — some relevant experience but notable mismatches\n" ++
  "  30-49:  Weak fit — partial skill overlap but significant mismatches\n" ++
  "  0-29:   Poor fit — fundamentally misaligned role, stack, or seniority\n\n" ++
  "Evaluation criteria (in priority order):\n" ++
  "  1. Role alignment — does the job title/description match target roles?\n" ++
  "  2. Skills overlap — does the job require the candidate\x27s core skills?\n" ++
  "  3. Seniority match — is the seniority level appropriate?\n" ++
  "  4. Workplace preference — remote/hybrid/onsite match?\n" ++
  "  5. Description relevance — any flags (stack mismatch, niche domain)?\n\n" ++
  "Return ONLY a JSON object (no markdown, no explanation):\n" ++
  "\x7b\"score\": <integer 0-100>, \"reasoning\": \"<1-2 sentence explanation>\"\x7d"

/-- _build_user_prompt: assemble the user prompt from profile and job. -/
def buildUserPrompt (candidate : JobCandidate) (profile : ProfileData) :
    String :=
  let years :=
    match profile.years_of_experience with
    | some n => toString n
    | none => "not specified"
  let workplace :=
    if profile.preferred_workplace = [] then "no preference"
    else String.intercalate ", " profile.preferred_workplace
  let skills :=
    if profile.scoring_keywords = [] then "not specified"
    else String.intercalate ", " profile.scoring_keywords
  let profile_section :=
    "CANDIDATE PROFILE\n" ++
    "Name: " ++ (if profile.name = "" then "not provided" else profile.name) ++ "\n" ++
    "Target roles: " ++ String.intercalate ", " profile.search_keywords ++ "\n" ++
    "Seniority: " ++ profile.seniority ++ "\n" ++
    "Core skills: " ++ skills ++ "\n" ++
    "Years of experience: " ++ years ++ "\n" ++
    "Workplace preference: " ++ workplace ++ "\n"
  let job_section :=
    "JOB LISTING\n" ++
    "Title: " ++ candidate.title ++ "\n" ++
    "Company: " ++ (if candidate.company = "" then "not provided" else candidate.company) ++ "\n" ++
    "Location: " ++ (if candidate.location = "" then "not provided" else candidate.location) ++ "\n" ++
    "Workplace type: " ++ (if candidate.workplace_type = "" then "not specified" else candidate.workplace_type) ++ "\n" ++
    "Posted: " ++ (if candidate.posted_time = "" then "not specified" else candidate.posted_time) ++ "\n" ++
    "Easy Apply: " ++ (if candidate.is_easy_apply then "yes" else "no") ++ "\n"
  let job_section :=
    if candidate.description_snippet = "" then job_section
    else job_section ++ "Description:\n" ++ candidate.description_snippet ++ "\n"
  profile_section ++ "\n" ++ job_section

/-- score_candidate_llm: skip candidates without a description snippet; on
any provider or parse failure return the input unchanged; on success blend
the scores and carry the raw llm score and reasoning. -/
def scoreCandidateLLM (scored : ScoredCandidate) (profile : ProfileData)
    (config : ScoringConfig) (provider : LLMProvider) : ScoredCandidate :=
  let candidate := scored.candidate
  if candidate.description_snippet = "" then scored
  else
    let prompt := buildUserPrompt candidate profile
    match provider.complete prompt config.llm_model scoringSystemPrompt with
    | Except.error _ => scored
    | Except.ok raw =>
      match parseLLMScore raw with
      | Except.error _ => scored
      | Except.ok (llm_score, reasoning) =>
        let blended :=
          round2 (config.rule_weight * scored.score +
            config.llm_weight * llm_score)
        ⟨candidate, blended, some llm_score, reasoning⟩

/-- score_candidates_llm: pass-through when disabled, otherwise score every
candidate with the provider from the registry (here a parameter) and
re-sort by blended score descending. -/
def scoreCandidatesLLM (getProvider : String → LLMProvider)
    (scored_list : List ScoredCandidate) (profile : ProfileData)
    (config : ScoringConfig) : List ScoredCandidate :=
  if !config.llm_enabled then scored_list
  else
    let provider := getProvider config.llm_provider
    sortByScoreDesc
      (scored_list.map (fun s => scoreCandidateLLM s profile config provider))

/-! ## Store (src/core/db.py)

SQLite tables are modelled as lists of row structures; commits are implicit
in the explicit state passing. -/

/-- A row of the candidates table (UNIQUE(external_id, platform)). -/
structure CandidateRow where
  external_id : String
  platform : String
  title : String
  company : String
  location : String
  url : String
  is_easy_apply : Bool
  workplace_type : String
  posted_time : String
  description_snippet : String
  score : ℚ
  status : String
  found_at : Int
deriving DecidableEq, Repr

/-- A row of the quota table (primary key (platform, date)). -/
structure QuotaRow where
  platform : String
  date : String
  searches_run : Nat
  candidates_found : Nat
deriving DecidableEq, Repr

/-- A row of the search_runs audit table.  The serialized filters_json is
modelled by carrying the SearchFilters value itself; started_at/finished_at
timestamps are integers. -/
structure SearchRunRow where
  platform : String
  keyword : String
  filters : SearchFilters
  raw_count : Nat
  filtered_count : Nat
  started_at : Int
  finished_at : Int
deriving DecidableEq, Repr

/-- The candidates-table row written for a scored candidate (the column
values of the INSERT in upsert_candidate; status defaults to new). -/
def candidateRowOf (scored : ScoredCandidate) : CandidateRow :=
  let c := scored.candidate
  ⟨c.external_id, c.platform, c.title, c.company, c.location, c.url,
   c.is_easy_apply, c.workplace_type, c.posted_time, c.description_snippet,
   scored.score, "new", c.found_at⟩

/-- upsert_candidate: INSERT the row; a duplicate (external_id, platform)
raises sqlite3.IntegrityError, which is handled as the normal not-new
signal (returns false, store unchanged). -/
def upsertCandidate (store : List CandidateRow) (scored : ScoredCandidate) :
    Bool × List CandidateRow :=
  if store.any (fun r =>
      r.external_id == scored.candidate.external_id &&
        r.platform == scored.candidate.platform) then
    (false, store)
  else
    (true, store ++ [candidateRowOf scored])

/-- Number of stored rows with a given (external_id, platform) key. -/
def countRows (store : List CandidateRow) (external_id platform : String) :
    Nat :=
  (store.filter (fun r =>
    r.external_id == external_id && r.platform == platform)).length

/-- is_candidate_seen: any row with the key whose found_at is at or after
the cutoff (now minus the TTL window, in days). -/
def isCandidateSeen (store : List CandidateRow)
    (external_id platform : String) (cutoff : Int) : Bool :=
  store.any (fun r =>
    r.external_id == external_id && r.platform == platform &&
      cutoff ≤ r.found_at)

/-- get_quota: the counters for (platform, date); a missing row reads as
(0, 0). -/
def getQuota (qt : List QuotaRow) (platform d : String) : Nat × Nat :=
  match qt.find? (fun r => r.platform == platform && r.date == d) with
  | none => (0, 0)
  | some r => (r.searches_run, r.candidates_found)

/-- update_quota: INSERT ... ON CONFLICT(platform, date) DO UPDATE adding
the deltas; creates the row when absent. -/
def updateQuota (qt : List QuotaRow) (platform d : String)
    (searches_delta candidates_delta : Nat) : List QuotaRow :=
  if qt.any (fun r => r.platform == platform && r.date == d) then
    qt.map (fun r =>
      if r.platform == platform && r.date == d then
        ⟨r.platform, r.date, r.searches_run + searches_delta,
         r.candidates_found + candidates_delta⟩
      else r)
  else qt ++ [⟨platform, d, searches_delta, candidates_delta⟩]

/-! ## Quota manager (src/pipeline/quota_manager.py) -/

/-- Lookup of a platform in the configured quota dict (dict.get). -/
def lookupQuotaCfg (quotas : List (String × QuotaPlatformConfig))
    (platform : String) : Option QuotaPlatformConfig :=
  match quotas.find? (fun p => p.1 == platform) with
  | none => none
  | some p => some p.2

/-- can_search: unconfigured platforms are unlimited; otherwise today's
recorded search count must be strictly below the daily maximum. -/
def canSearch (quotas : List (String × QuotaPlatformConfig))
    (qt : List QuotaRow) (today platform : String) : Bool :=
  match lookupQuotaCfg quotas platform with
  | none => true
  | some config => (getQuota qt platform today).1 < config.max_searches_per_day

/-! ## Orchestrator (src/pipeline/orchestrator.py) -/

/-- SearchResult: summary of a single keyword search execution. -/
structure SearchResult where
  keyword : String
  platform : String
  raw_count : Nat
  filtered_count : Nat
  new_count : Nat
  scored : List ScoredCandidate
deriving DecidableEq, Repr

/-- The mutable resources run_search touches: the candidates and quota
tables, the search_runs log, and the shared in-memory dedup set. -/
structure PipeState where
  store : List CandidateRow
  quota : List QuotaRow
  runs : List SearchRunRow
  dedupSeen : List (String × String)
deriving DecidableEq, Repr

/-- run_search from src/pipeline/orchestrator.py: quota gate, adapter
search, filter chain (exclude, positive, shared dedup, already-seen with a
30-day TTL), rule scoring, upsert loop counting new rows, quota recording
(one search, then the new-candidate count), search-run audit row.  Returns
none (and an unchanged state) when the quota gate denies.  The adapter is
the external capability; `today` and `now` model date.today() and
datetime.now(). -/
def runSearch (search_config : SearchConfig)
    (adapter : SearchConfig → List JobCandidate)
    (quotas : List (String × QuotaPlatformConfig)) (settings : Settings)
    (st : PipeState) (today : String) (now : Int) :
    Option SearchResult × PipeState :=
  let platform := search_config.platform
  let keyword := search_config.keyword
  if !(canSearch quotas st.quota today platform) then (none, st)
  else
    let raw_candidates := adapter search_config
    let f1 := excludeFilter search_config.exclude_keywords raw_candidates
    let f2 := posFilter search_config.require_keywords f1
    let dd := dedupFilter st.dedupSeen f2
    let filtered := dd.1.filter (fun c =>
      !(isCandidateSeen st.store c.external_id c.platform (now - 30)))
    let scored := scoreCandidates filtered settings.scoring
      search_config.require_keywords search_config.scoring_keywords
    let ups := scored.foldl
      (fun acc s =>
        let u := upsertCandidate acc.2 s
        (if u.1 then acc.1 + 1 else acc.1, u.2))
      (0, st.store)
    let new_count := ups.1
    let quota1 := updateQuota st.quota platform today 1 0
    let quota2 := updateQuota quota1 platform today 0 new_count
    let runs2 := st.runs ++ [⟨platform, keyword, search_config.filters,
      raw_candidates.length, filtered.length, now, now⟩]
    (some ⟨keyword, platform, raw_candidates.length, filtered.length,
      new_count, scored⟩,
     ⟨ups.2, quota2, runs2, dd.2⟩)

/-- export_results_json: the JSON array of exported objects, one object per
(search, scored-candidate) pair, keys in the order the dict literal writes
them.  json.dumps is external; the model keeps the array of objects. -/
def exportResultsJson (results : List SearchResult) :
    List (List (String × JVal)) :=
  results.foldl
    (fun data r =>
      r.scored.foldl
        (fun data s =>
          let c := s.candidate
          data ++ [[("keyword", JVal.jstr r.keyword),
            ("external_id", JVal.jstr c.external_id),
            ("platform", JVal.jstr c.platform),
            ("title", JVal.jstr c.title),
            ("company", JVal.jstr c.company),
            ("location", JVal.jstr c.location),
            ("url", JVal.jstr c.url),
            ("is_easy_apply", JVal.jbool c.is_easy_apply),
            ("workplace_type", JVal.jstr c.workplace_type),
            ("posted_time", JVal.jstr c.posted_time),
            ("description_snippet", JVal.jstr c.description_snippet),
            ("score", JVal.jnum s.score)]])
        data)
    []

/-! ## Concrete inputs used by the claim theorems and witnesses -/

/-- A candidate with a description snippet and a zero rule score. -/
def c1Candidate : JobCandidate :=
  ⟨"c1", "linkedin", "Engineer", "", "", "https://jobs/c1", false, "", "",
   "Great Python role", 0⟩

/-- A plain keyword search on linkedin without keyword filters. -/
def c1SearchConfig : SearchConfig :=
  ⟨"python", "linkedin", ⟨none, [], [], false, 3⟩, [], [], [], false⟩

/-- Scoring configuration with LLM scoring enabled (weights 0.4/0.6). -/
def c1Scoring : ScoringConfig :=
  ⟨20, 15, 10, 10, 3/10, true, "gemini", none, 2/5, 3/5⟩

/-- Settings with one configured search and a 5-search daily quota. -/
def c1Settings : Settings :=
  ⟨c1Scoring, [("linkedin", ⟨5, 200⟩)], [c1SearchConfig]⟩

/-- Fresh pipeline state: empty store, quota table, run log, dedup set. -/
def c1State : PipeState := ⟨[], [], [], []⟩

/-- An LLM-enabled scoring configuration whose weights sum to 0.8, not 1. -/
def c2Config : ScoringConfig :=
  ⟨20, 15, 10, 10, 3/10, true, "gemini", none, 3/10, 1/2⟩

/-- The candidate of the blend example (rule score 50). -/
def c3Candidate : JobCandidate :=
  ⟨"job-123", "linkedin", "Senior Python Engineer", "Acme Corp", "Remote",
   "https://linkedin.com/jobs/view/123", true, "remote", "2 days ago",
   "We are looking for a Senior Python Engineer...", 0⟩

/-- Rule-scored candidate with score 50 and no LLM data yet. -/
def c3Scored : ScoredCandidate := ⟨c3Candidate, 50, none, ""⟩

/-- A candidate profile. -/
def c3Profile : ProfileData :=
  ⟨"Jane Dev", ["Senior Python Engineer"], "senior", ["Python"], [],
   some 8, ["remote"], []⟩

/-- Scoring configuration with rule_weight 0.4 and llm_weight 0.6. -/
def c3Config : ScoringConfig :=
  ⟨20, 15, 10, 10, 3/10, true, "gemini", none, 2/5, 3/5⟩

/-- A well-formed LLM response with score 80. -/
def c3Raw : String := "\x7b\"score\": 80, \"reasoning\": \"Great fit\"\x7d"

/-- A provider that always returns the score-80 response. -/
def c3Provider : LLMProvider := ⟨fun _ _ _ => Except.ok c3Raw⟩

/-- A candidate appearing in an exported report. -/
def c4Candidate : JobCandidate :=
  ⟨"llm1", "linkedin", "Senior Python Engineer", "", "",
   "https://jobs/llm1", false, "", "", "desc", 0⟩

/-- A scored candidate that carries LLM data to be exported. -/
def c4Scored : ScoredCandidate := ⟨c4Candidate, 50, some 80, "Strong match"⟩

/-- A search result wrapping the LLM-scored candidate. -/
def c4Result : SearchResult := ⟨"python", "linkedin", 1, 1, 1, [c4Scored]⟩

/-- Quota configuration: 5 searches per day on linkedin. -/
def c5Quotas : List (String × QuotaPlatformConfig) := [("linkedin", ⟨5, 200⟩)]

/-- Quota table with 4 of 5 searches recorded on 2026-10-11. -/
def c5TableNearLimit : List QuotaRow := [⟨"linkedin", "2026-10-11", 4, 9⟩]

/-- Quota table with all 5 searches recorded on 2026-10-11. -/
def c5TableAtLimit : List QuotaRow := [⟨"linkedin", "2026-10-11", 5, 9⟩]

/-- A candidate with an empty description snippet. -/
def c7Candidate : JobCandidate :=
  ⟨"job-7", "linkedin", "Engineer", "", "", "https://jobs/7", false, "", "",
   "", 0⟩

/-- Rule-scored candidate (score 42) whose snippet is empty. -/
def c7Scored : ScoredCandidate := ⟨c7Candidate, 42, none, ""⟩

/-- A provider that would return a parseable score-90 response if called. -/
def c7Provider : LLMProvider :=
  ⟨fun _ _ _ => Except.ok "\x7b\"score\": 90, \"reasoning\": \"x\"\x7d"⟩

/-- Title "python" and snippet "dev": the keyword "python dev" matches only
across the title/snippet boundary. -/
def c8Candidate : JobCandidate :=
  ⟨"c8", "linkedin", "python", "", "", "https://jobs/c8", false, "", "",
   "dev", 0⟩

/-- A candidate to upsert twice. -/
def c9Candidate : JobCandidate :=
  ⟨"dup-1", "linkedin", "Engineer", "", "", "https://jobs/dup1", false, "",
   "", "", 5⟩

/-- Scored wrapper for the duplicate-upsert scenario. -/
def c9Scored : ScoredCandidate := ⟨c9Candidate, 75, none, ""⟩

/-- A candidate for direct ScoredCandidate construction. -/
def c10Candidate : JobCandidate :=
  ⟨"c10", "linkedin", "Engineer", "", "", "https://jobs/c10", false, "", "",
   "", 0⟩

/-! ## Helper lemmas -/

/-- Rat.blt is the strict order on ℚ. -/
theorem blt_iff (a b : ℚ) : Rat.blt a b = true ↔ a < b := Iff.rfl

/-- pyMax agrees with max. -/
theorem pyMax_eq_max (a b : ℚ) : pyMax a b = max a b := by
  unfold pyMax
  split
  · rename_i h
    exact (max_eq_right (le_of_lt ((blt_iff a b).mp h))).symm
  · rename_i h
    exact (max_eq_left (le_of_not_lt (fun hlt => h ((blt_iff a b).mpr hlt)))).symm

/-- pyMin agrees with min. -/
theorem pyMin_eq_min (a b : ℚ) : pyMin a b = min a b := by
  unfold pyMin
  split
  · rename_i h
    exact (min_eq_right (le_of_lt ((blt_iff b a).mp h))).symm
  · rename_i h
    exact (min_eq_left (le_of_not_lt (fun hlt => h ((blt_iff b a).mpr hlt)))).symm

/-! ## Claim theorems -/

/-- C1: the spec claims that on every executed search the per-search
pipeline runs the Rule Scorer and then, whenever LLM scoring is enabled,
the LLM Scorer on the rule-scored batch before persisting, so stored and
returned scores are LLM-blended.  The code does not: run_search in
src/pipeline/orchestrator.py scores with the rule scorer only and never
invokes score_candidates_llm.  Concretely, a quota-allowed search with
llm_enabled = true, weights 0.4/0.6, and a provider-scorable candidate
returns the bare rule score (here 0) with no llm_score and no reasoning
attached, and that is also what the upsert persists. -/
theorem C1_run_search_never_blends :
    c1Scoring.llm_enabled = true ∧
    (runSearch c1SearchConfig (fun _ => [c1Candidate]) c1Settings.quotas
        c1Settings c1State "2026-10-12" 100).1 =
      some ⟨"python", "linkedin", 1, 1, 1, [⟨c1Candidate, 0, none, ""⟩]⟩ := by
  refine ⟨rfl, ?_⟩
  with_unfolding_all decide

/-- C2: the spec claims that when LLM scoring is enabled, configuration
loading validates rule_weight + llm_weight = 1.0 exactly and fails fast at
load time.  The ScoringConfig class in src/core/config.py declares no LLM
fields and no weight-sum validator (its only declared constraint bounds
recency_weight), so the violating configuration below — LLM enabled with
weights summing to 0.8 — passes configuration validation, while the
spec-modelled validator rejects it. -/
theorem C2_weight_invariant_not_validated :
    validateScoringConfig c2Config = true ∧
    c2Config.llm_enabled = true ∧
    c2Config.rule_weight + c2Config.llm_weight ≠ 1 ∧
    validateScoringConfigSpec c2Config = false := by
  with_unfolding_all decide

/-- C3: for every scored candidate with a non-empty description snippet
whose LLM call and response parse succeed, score_candidate_llm returns a
new ScoredCandidate whose score is round(rule_weight x original +
llm_weight x llm_score, 2) and which carries the raw llm_score and the
reasoning text. -/
theorem C3_blended_score (scored : ScoredCandidate) (profile : ProfileData)
    (config : ScoringConfig) (provider : LLMProvider) (llm_score : ℚ)
    (reasoning raw : String)
    (hdesc : scored.candidate.description_snippet ≠ "")
    (hcall : provider.complete (buildUserPrompt scored.candidate profile)
        config.llm_model scoringSystemPrompt = Except.ok raw)
    (hparse : parseLLMScore raw = Except.ok (llm_score, reasoning)) :
    scoreCandidateLLM scored profile config provider =
      ⟨scored.candidate,
       round2 (config.rule_weight * scored.score +
         config.llm_weight * llm_score),
       some llm_score, reasoning⟩ := by
  simp only [scoreCandidateLLM, hcall, hparse, if_neg hdesc]

/-- C3 witness: rule score 50, llm score 80, weights 0.4/0.6 blend to
exactly 68. -/
theorem C3_blended_score_witness :
    scoreCandidateLLM c3Scored c3Profile c3Config c3Provider =
      ⟨c3Candidate, 68, some 80, "Great fit"⟩ := by
  rw [C3_blended_score c3Scored c3Profile c3Config c3Provider 80 "Great fit"
    c3Raw (by decide) rfl rfl]
  with_unfolding_all decide

/-- C4: the spec claims each exported object contains the keyword, every
Candidate field, the score, an llm_score key (null when absent) and an
llm_reasoning key (empty when absent).  export_results_json in
src/pipeline/orchestrator.py writes no llm_score or llm_reasoning key (and
no found_at key) even for a scored candidate that carries LLM data: the
exported key set at a concrete result is exactly the twelve keys below. -/
theorem C4_export_omits_llm_fields :
    (exportResultsJson [c4Result]).map (fun o => o.map Prod.fst) =
      [["keyword", "external_id", "platform", "title", "company", "location",
        "url", "is_easy_apply", "workplace_type", "posted_time",
        "description_snippet", "score"]] ∧
    c4Scored.llm_score = some 80 ∧ c4Scored.llm_reasoning = "Strong match" :=
  ⟨rfl, rfl, rfl⟩

/-- C5: can_search is true when no quota is configured for the platform;
with a configured quota it is true exactly when the recorded count for the
date is strictly below the maximum (in particular true at max - 1, false at
max); and on a date with no quota row the count reads as zero, so the gate
resets to true regardless of any other date, given the configured maximum
is at least 1 (pydantic declares it ge=1). -/
theorem C5_can_search (quotas : List (String × QuotaPlatformConfig))
    (qt : List QuotaRow) (today platform : String) :
    (lookupQuotaCfg quotas platform = none →
      canSearch quotas qt today platform = true) ∧
    (∀ cfg, lookupQuotaCfg quotas platform = some cfg →
      ((canSearch quotas qt today platform = true ↔
          (getQuota qt platform today).1 < cfg.max_searches_per_day) ∧
       (1 ≤ cfg.max_searches_per_day →
         (getQuota qt platform today).1 = cfg.max_searches_per_day - 1 →
         canSearch quotas qt today platform = true) ∧
       ((getQuota qt platform today).1 = cfg.max_searches_per_day →
         canSearch quotas qt today platform = false))) ∧
    (∀ cfg d2, lookupQuotaCfg quotas platform = some cfg →
      1 ≤ cfg.max_searches_per_day →
      (∀ r ∈ qt, ¬(r.platform = platform ∧ r.date = d2)) →
      canSearch quotas qt d2 platform = true) := by
  refine ⟨?_, ?_, ?_⟩
  · intro h
    simp [canSearch, h]
  · intro cfg h
    have hc : canSearch quotas qt today platform =
        decide ((getQuota qt platform today).1 < cfg.max_searches_per_day) := by
      simp [canSearch, h]
    refine ⟨?_, ?_, ?_⟩
    · rw [hc, decide_eq_true_eq]
    · intro h1 h2
      rw [hc, decide_eq_true_eq]
      omega
    · intro h2
      rw [hc, decide_eq_false_iff_not]
      omega
  · intro cfg d2 h h1 hnone
    have hfind : qt.find?
        (fun r => r.platform == platform && r.date == d2) = none := by
      rw [List.find?_eq_none]
      intro r hr
      simp only [Bool.and_eq_true, beq_iff_eq]
      exact hnone r hr
    have hq : getQuota qt platform d2 = (0, 0) := by
      simp [getQuota, hfind]
    simp [canSearch, h, hq]
    omega

/-- C5 witness: with max 5 configured, 4 searches recorded today allow a
search, 5 deny it, and the same 5-count table allows again on a fresh
date. -/
theorem C5_can_search_witness :
    canSearch c5Quotas c5TableNearLimit "2026-10-11" "linkedin" = true ∧
    canSearch c5Quotas c5TableAtLimit "2026-10-11" "linkedin" = false ∧
    canSearch c5Quotas c5TableAtLimit "2026-10-12" "linkedin" = true := by
  refine ⟨?_, ?_, ?_⟩
  · exact (((C5_can_search c5Quotas c5TableNearLimit "2026-10-11"
      "linkedin").2.1 ⟨5, 200⟩ rfl).2.1) (by decide) (by decide)
  · exact (((C5_can_search c5Quotas c5TableAtLimit "2026-10-11"
      "linkedin").2.1 ⟨5, 200⟩ rfl).2.2) (by decide)
  · exact ((C5_can_search c5Quotas c5TableAtLimit "2026-10-11"
      "linkedin").2.2 ⟨5, 200⟩ "2026-10-12" rfl (by decide) (by decide))

/-- C6: for every candidate, every scoring configuration (bonuses
arbitrarily large or negative) and any keyword lists, the rule score is
clamped to [0, 100] before the ScoredCandidate is constructed. -/
theorem C6_rule_score_clamped (candidate : JobCandidate)
    (config : ScoringConfig)
    (require_keywords scoring_keywords : List String) :
    0 ≤ (scoreCandidate candidate config require_keywords
        scoring_keywords).score ∧
    (scoreCandidate candidate config require_keywords
        scoring_keywords).score ≤ 100 := by
  have h : (scoreCandidate candidate config require_keywords
      scoring_keywords).score =
      pyMax 0 (pyMin 100 (scoreRaw candidate config require_keywords
        scoring_keywords)) := rfl
  rw [h, pyMax_eq_max, pyMin_eq_min]
  exact ⟨le_max_left 0 _, max_le (by norm_num) (min_le_left 100 _)⟩

/-- C7: for every scored candidate whose candidate has an empty description
snippet, score_candidate_llm returns its input unchanged, and the result
does not depend on the provider at all (no LLM call is made). -/
theorem C7_empty_snippet_skipped (scored : ScoredCandidate)
    (profile : ProfileData) (config : ScoringConfig) (provider : LLMProvider)
    (h : scored.candidate.description_snippet = "") :
    scoreCandidateLLM scored profile config provider = scored ∧
    ∀ p2 : LLMProvider,
      scoreCandidateLLM scored profile config p2 =
        scoreCandidateLLM scored profile config provider := by
  constructor
  · simp [scoreCandidateLLM, h]
  · intro p2
    simp [scoreCandidateLLM, h]

/-- C7 witness: a candidate with an empty snippet keeps its rule score 42
even under a provider that would answer with score 90. -/
theorem C7_empty_snippet_skipped_witness :
    scoreCandidateLLM c7Scored c3Profile c3Config c7Provider = c7Scored :=
  (C7_empty_snippet_skipped c7Scored c3Profile c3Config c7Provider rfl).1

/-- C8 counterexample: the claim says a candidate is kept iff some keyword
occurs in the title OR in the description snippet.  With title "python",
snippet "dev" and required keyword "python dev", the filter keeps the
candidate although the keyword occurs in neither field alone: the code
matches against the space-joined concatenation of both fields. -/
theorem C8_title_or_snippet_refuted :
    posFilter ["python dev"] [c8Candidate] = [c8Candidate] ∧
    containsSub (lowerStr c8Candidate.title) "python dev" = false ∧
    containsSub (lowerStr c8Candidate.description_snippet) "python dev"
      = false := by
  decide

/-- C8 (amended): with at least one non-whitespace required keyword, a
candidate is kept iff some trimmed, lowercased keyword occurs in the
lowercased string title ++ " " ++ snippet (so a keyword may also match
across the title/snippet boundary); a keyword list with no non-whitespace
entry passes the batch through unchanged. -/
theorem C8_positive_filter_concat (require_keywords : List String)
    (candidates : List JobCandidate) :
    (normKeywords require_keywords = [] →
      posFilter require_keywords candidates = candidates) ∧
    (normKeywords require_keywords ≠ [] →
      ∀ c, c ∈ posFilter require_keywords candidates ↔
        c ∈ candidates ∧ ∃ kw ∈ normKeywords require_keywords,
          containsSub (lowerStr (c.title ++ " " ++ c.description_snippet))
            kw = true) := by
  constructor
  · intro h
    simp [posFilter, h]
  · intro h c
    simp [posFilter, h, List.mem_filter, List.any_eq_true]

/-- C8 witness: the boundary-spanning candidate is kept by the filter, as
the amended statement predicts. -/
theorem C8_positive_filter_concat_witness :
    c8Candidate ∈ posFilter ["python dev"] [c8Candidate] := by
  refine ((C8_positive_filter_concat ["python dev"] [c8Candidate]).2
    (by decide) c8Candidate).mpr ?_
  exact ⟨by simp, "python dev", by decide, by decide⟩

/-- C9: upserting a candidate whose (external_id, platform) pair is not yet
stored, twice, reports new the first time, not-new the second time (no
error: the duplicate-key collision is the normal not-new signal), leaves
the store unchanged on the second call, and leaves exactly one row for the
pair. -/
theorem C9_upsert_idempotent (store : List CandidateRow)
    (scored : ScoredCandidate)
    (h : countRows store scored.candidate.external_id
        scored.candidate.platform = 0) :
    (upsertCandidate store scored).1 = true ∧
    (upsertCandidate (upsertCandidate store scored).2 scored).1 = false ∧
    (upsertCandidate (upsertCandidate store scored).2 scored).2 =
      (upsertCandidate store scored).2 ∧
    countRows (upsertCandidate (upsertCandidate store scored).2 scored).2
      scored.candidate.external_id scored.candidate.platform = 1 := by
  have hfilter : store.filter (fun r =>
      r.external_id == scored.candidate.external_id &&
        r.platform == scored.candidate.platform) = [] := by
    have := h
    unfold countRows at this
    exact List.length_eq_zero.mp this
  have hpred : ∀ r ∈ store,
      ¬((r.external_id == scored.candidate.external_id &&
        r.platform == scored.candidate.platform) = true) := by
    intro r hr hmatch
    have hmem : r ∈ store.filter (fun r =>
        r.external_id == scored.candidate.external_id &&
          r.platform == scored.candidate.platform) :=
      List.mem_filter.mpr ⟨hr, hmatch⟩
    rw [hfilter] at hmem
    exact absurd hmem (List.not_mem_nil r)
  have hany : store.any (fun r =>
      r.external_id == scored.candidate.external_id &&
        r.platform == scored.candidate.platform) = false := by
    rw [List.any_eq_false]
    exact hpred
  have hrow : ((candidateRowOf scored).external_id ==
      scored.candidate.external_id &&
      (candidateRowOf scored).platform == scored.candidate.platform)
        = true := by
    simp [candidateRowOf]
  have h1 : upsertCandidate store scored =
      (true, store ++ [candidateRowOf scored]) := by
    simp [upsertCandidate, hany]
  have hany2 : (store ++ [candidateRowOf scored]).any (fun r =>
      r.external_id == scored.candidate.external_id &&
        r.platform == scored.candidate.platform) = true := by
    rw [List.any_append]
    simp [hrow]
  have h2 : upsertCandidate (store ++ [candidateRowOf scored]) scored =
      (false, store ++ [candidateRowOf scored]) := by
    simp [upsertCandidate, hany2]
  have hcount : countRows (store ++ [candidateRowOf scored])
      scored.candidate.external_id scored.candidate.platform = 1 := by
    unfold countRows
    rw [List.filter_append, hfilter]
    simp [hrow]
  rw [h1]
  rw [h2]
  exact ⟨rfl, rfl, rfl, hcount⟩

/-- C9 witness: upserting the same scored candidate twice into an empty
store reports new then not-new and leaves one row for the pair. -/
theorem C9_upsert_idempotent_witness :
    (upsertCandidate [] c9Scored).1 = true ∧
    (upsertCandidate (upsertCandidate [] c9Scored).2 c9Scored).1 = false ∧
    countRows (upsertCandidate (upsertCandidate [] c9Scored).2 c9Scored).2
      "dup-1" "linkedin" = 1 := by
  have h := C9_upsert_idempotent [] c9Scored rfl
  exact ⟨h.1, h.2.1, h.2.2.2⟩

/-- C10: constructing a ScoredCandidate directly with a score outside
[0, 100] is rejected by validation (no clamping), while every in-range
score is accepted and stored unchanged. -/
theorem C10_constructor_validation (c : JobCandidate) :
    mkScoredCandidate c 150 = none ∧
    mkScoredCandidate c (-1) = none ∧
    ∀ s : ℚ, 0 ≤ s → s ≤ 100 →
      mkScoredCandidate c s = some ⟨c, s, none, ""⟩ := by
  refine ⟨?_, ?_, ?_⟩
  · have h : ¬((0 : ℚ) ≤ 150 ∧ (150 : ℚ) ≤ 100) := by norm_num
    simp only [mkScoredCandidate, if_neg h]
  · have h : ¬((0 : ℚ) ≤ -1 ∧ (-1 : ℚ) ≤ 100) := by norm_num
    simp only [mkScoredCandidate, if_neg h]
  · intro s h1 h2
    simp only [mkScoredCandidate, if_pos (And.intro h1 h2)]

/-- C10 witness: score 150 is rejected while score 50 is accepted
unchanged. -/
theorem C10_constructor_validation_witness :
    mkScoredCandidate c10Candidate 150 = none ∧
    mkScoredCandidate c10Candidate 50 = some ⟨c10Candidate, 50, none, ""⟩ :=
  ⟨(C10_constructor_validation c10Candidate).1,
   (C10_constructor_validation c10Candidate).2.2 50 (by norm_num)
     (by norm_num)⟩

end JobsSearch
